import Mathlib

/-!
Verification development for the UTEXO SDK (`rgb-sdk`).

This file shallow-embeds the TypeScript functions of the repository that the
checked properties are about:

* `toUnitsNumber` / `fromUnitsNumber`        (src/utexo/utils/helpers.ts)
* the network/asset preset registry and
  `getDestinationAsset`                      (src/utexo/utils/network.ts,
                                              src/utexo/config/utexo-presets.ts)
* `encodeTransferStatus` / `getWithdrawTransfer`
  / `getTransferByMainnetInvoice`            (src/utexo/bridge/api.ts)
* `decodeBridgeInvoice` (hex → UTF-8 payload decoding, as written inline
  at its call sites in the wallet source)
* `detectPsbtType`                           (the PSBT signer module)
* the `UTEXOWallet` orchestrator methods `validateBalance`,
  `extractInvoiceAndAsset`, `onchainSendBegin`, `UTEXOToMainnetRGB`,
  `getOnchainSendStatus`                     (src/utexo/utexo-wallet.ts)

JavaScript strings are modelled as Lean `String`/`List Char`; JavaScript
numbers are modelled as `Nat`/`Int`/`ℚ` with the safe-integer bound
`2^53 - 1` made explicit where the code checks it.  External collaborators
(the bridge HTTP service, the RGB wallet engine, Node's `Buffer`,
`Number.prototype.toString`) are modelled as explicit oracle parameters.
Fallible code returns `Except`.
-/

/-! ## JavaScript string primitives -/

/-- Whitespace characters recognised by `String.prototype.trim`
(the ones relevant here; all are non-digits). -/
def jsIsWhitespace (c : Char) : Bool :=
  c = ' ' || c = '\t' || c = '\n' || c = '\r' ||
  c = Char.ofNat 11 || c = Char.ofNat 12 || c = Char.ofNat 0xA0 ||
  c = Char.ofNat 0x2028 || c = Char.ofNat 0x2029 || c = Char.ofNat 0xFEFF

/-- `String.prototype.trim` on a character list: drop leading and trailing
whitespace. -/
def jsTrimList (l : List Char) : List Char :=
  ((l.dropWhile jsIsWhitespace).reverse.dropWhile jsIsWhitespace).reverse

/-- `String.prototype.split` with a single-character separator, on character
lists.  Mirrors JavaScript: `"".split(".") = [""]`, `"a." → ["a",""]`. -/
def jsSplitChar (sep : Char) : List Char → List (List Char)
  | [] => [[]]
  | c :: cs =>
    match jsSplitChar sep cs with
    | [] => [[]]
    | h :: t => if c = sep then [] :: h :: t else (c :: h) :: t

/-- Value of a decimal-digit character list read as a natural number
(the exact numeric value of the digit string). -/
def digitsToNat (l : List Char) : Nat :=
  l.foldl (fun acc c => acc * 10 + (c.toNat - 48)) 0

/-- `Number(s)` for the digit-only strings `toUnitsNumber` constructs:
`some` of the exact value of the digit string, `none` (`NaN`) otherwise.
For a digit string with exact value `≤ 2^53 - 1` the double is exact, and
for one with exact value `≥ 2^53` the parsed double is `≥ 2^53`, so the
subsequent `Number.isSafeInteger` test in the source is decided exactly by
the exact value, which is what this model returns. -/
def jsNumberOfDigits (l : List Char) : Option Nat :=
  if l ≠ [] ∧ l.all (·.isDigit) then some (digitsToNat l) else none

/-- `Number.MAX_SAFE_INTEGER` = `2^53 - 1`. -/
def NUMBER_MAX_SAFE_INTEGER : Nat := 2 ^ 53 - 1

/-- The message thrown by `toUnitsNumber` on overflow (source: ```Amount
exceeds MAX_SAFE_INTEGER. Use BigInt instead. got=...```; the interpolated
tail is not modelled). -/
def overflowMsg : String := "Amount exceeds MAX_SAFE_INTEGER. Use BigInt instead."

/-! ## UnitConverter (src/utexo/utils/helpers.ts) -/

/-- `s.startsWith("-")`. -/
def jsStartsWithDash (l : List Char) : Bool :=
  match l with | c :: _ => c = '-' | [] => false

/-- The unsigned middle of `toUnitsNumber` (`helpers.ts`), applied to the
sign-stripped input `body`:

```ts
const [iRaw, fRaw = ""] = body.split(".");
const frac = (fRaw + "0".repeat(precision)).slice(0, precision);
const unitsStr = (iRaw || "0") + frac;
return Number(unitsStr);
```
-/
def toUnitsUnsigned (body : List Char) (precision : Nat) : Option Nat :=
  let parts := jsSplitChar '.' body
  let iRaw := parts.headD []
  let fRaw := (parts.drop 1).headD []
  let frac := (fRaw ++ List.replicate precision '0').take precision
  let unitsStr := (if iRaw = [] then ['0'] else iRaw) ++ frac
  jsNumberOfDigits unitsStr

/-- `toUnitsNumber` after the initial `String(value).trim()`:

```ts
const neg = s.startsWith("-");
const units = Number(unitsStr);          // via toUnitsUnsigned
if (!Number.isSafeInteger(units)) { throw ... }
return neg ? -units : units;
```
-/
def toUnitsCore (s : List Char) (precision : Nat) : Except String Int :=
  let neg := jsStartsWithDash s
  let body := if neg then s.drop 1 else s
  match toUnitsUnsigned body precision with
  | none => .error overflowMsg
  | some units =>
    if units ≤ NUMBER_MAX_SAFE_INTEGER then
      .ok (if neg then -(units : Int) else (units : Int))
    else .error overflowMsg

/-- `toUnitsNumber(value, precision)` from `helpers.ts`:

```ts
const s = String(value).trim();
const neg = s.startsWith("-");
const [iRaw, fRaw = ""] = (neg ? s.slice(1) : s).split(".");
const frac = (fRaw + "0".repeat(precision)).slice(0, precision);
const unitsStr = (iRaw || "0") + frac;
const units = Number(unitsStr);
if (!Number.isSafeInteger(units)) { throw ... }
return neg ? -units : units;
```
-/
def toUnitsNumber (value : String) (precision : Nat) : Except String Int :=
  toUnitsCore (jsTrimList value.data) precision

/-- `fromUnitsNumber(units, precision)` from `helpers.ts`:

```ts
const neg = units < 0;
const base = 10 ** precision;
const value = Math.abs(units) / base;
return neg ? -value : value;
```

The JavaScript double division is modelled as exact rational division; on
the round-trip domain both the division result and the numeric value of the
input string denote the same double, and the exact-rational model preserves
that equality. -/
def fromUnitsNumber (units : Int) (precision : Nat) : ℚ :=
  let base : ℚ := 10 ^ precision
  let value : ℚ := |(units : ℚ)| / base
  if units < 0 then -value else value

/-! ## Structured decimal strings

`DecString` describes the plain decimal strings (optional sign, integer
digits, optional fractional digits) `toUnitsNumber` is fed; `render`
produces the corresponding string. -/

structure DecString where
  neg : Bool
  intPart : List Char
  fracPart : List Char

/-- Well-formedness: both digit lists hold decimal digit characters. -/
def DecString.wf (d : DecString) : Prop :=
  (∀ c ∈ d.intPart, c.isDigit) ∧ (∀ c ∈ d.fracPart, c.isDigit)

instance (d : DecString) : Decidable d.wf := by
  unfold DecString.wf; infer_instance

/-- The decimal string described by `d`, e.g. `⟨true, "1", "25"⟩ ↦ "-1.25"`. -/
def DecString.render (d : DecString) : String :=
  ⟨(if d.neg then ['-'] else []) ++ d.intPart ++
    (if d.fracPart = [] then [] else '.' :: d.fracPart)⟩

/-- Exact rational value of the decimal string. -/
def DecString.val (d : DecString) : ℚ :=
  (if d.neg then -1 else 1) *
    ((digitsToNat d.intPart : ℚ) + (digitsToNat d.fracPart : ℚ) / 10 ^ d.fracPart.length)

/-- Magnitude of the base-unit result `toUnitsNumber` computes at precision
`p`: the fractional digits are truncated/padded to exactly `p` digits and
concatenated with the integer part. -/
def DecString.baseUnits (d : DecString) (p : Nat) : Nat :=
  digitsToNat d.intPart * 10 ^ p +
    digitsToNat (d.fracPart.take p) * 10 ^ (p - d.fracPart.length)

/-- Sign factor of the result. -/
def DecString.sign (d : DecString) : Int := if d.neg then -1 else 1

/-! ## NetworkAssetRegistry
(src/utexo/utils/network.ts, src/utexo/config/utexo-presets.ts) -/

/-- One entry of a network's asset list. -/
structure NetworkAsset where
  assetId : String
  tokenName : String
  longName : String
  precision : Nat
  tokenId : Nat
deriving DecidableEq, Repr

/-- One logical network's configuration. -/
structure NetworkConfig where
  networkName : String
  networkId : Nat
  assets : List NetworkAsset
deriving DecidableEq, Repr

/-- `getAssetById(tokenId)` added by `withGetAssetById`:
`config.assets.find((a) => a.tokenId === tokenId)`. -/
def NetworkConfig.getAssetById (c : NetworkConfig) (tokenId : Nat) :
    Option NetworkAsset :=
  c.assets.find? (fun a => a.tokenId == tokenId)

/-- The three logical networks of a preset's `networkIdMap`. -/
structure UtxoNetworkIdMap where
  mainnet : NetworkConfig
  mainnetLightning : NetworkConfig
  utexo : NetworkConfig
deriving DecidableEq, Repr

/-- Keys into a `UtxoNetworkIdMap`. -/
inductive UtxoNetworkKey where
  | mainnet
  | mainnetLightning
  | utexo
deriving DecidableEq, Repr

def UtxoNetworkIdMap.get (m : UtxoNetworkIdMap) : UtxoNetworkKey → NetworkConfig
  | .mainnet => m.mainnet
  | .mainnetLightning => m.mainnetLightning
  | .utexo => m.utexo

/-- The `testnetPreset.networkIdMap` table from `utexo-presets.ts`
(re-exported at module level as `utexoNetworkIdMap`). -/
def testnetNetworkIdMap : UtxoNetworkIdMap where
  mainnet :=
    { networkName := "RGB"
      networkId := 36
      assets := [
        { assetId := "rgb:WPRv95Nj-icdrgPp-zpQhIp_-2TyJ~Ge-k~FvuMZ-~vVnkA0"
          tokenName := "tUSD"
          longName := "USDT"
          precision := 6
          tokenId := 4 }] }
  mainnetLightning :=
    { networkName := "RGB Lightning"
      networkId := 94
      assets := [
        { assetId := "rgb:WPRv95Nj-icdrgPp-zpQhIp_-2TyJ~Ge-k~FvuMZ-~vVnkA0"
          tokenName := "tUSD"
          longName := "USDT"
          precision := 6
          tokenId := 4 }] }
  utexo :=
    { networkName := "UTEXO"
      networkId := 96
      assets := [
        { assetId := "rgb:yJW4k8si-~8JdNfl-nM91qFu-r5rH_HS-1hM7jpi-L~lBf90"
          tokenName := "tUSD"
          longName := "USDT"
          precision := 6
          tokenId := 4 }] }

/-- `getDestinationAsset(senderNetwork, destinationNetwork, assetIdSender)`
from `network.ts` (always reads the module-level `utexoNetworkIdMap`, which
is the testnet preset):

```ts
const destinationConfig = utexoNetworkIdMap[destinationNetwork];
if (assetIdSender == null) return destinationConfig.assets[0];
const senderConfig = utexoNetworkIdMap[senderNetwork];
const senderAsset = senderConfig.assets.find((a) => a.assetId === assetIdSender);
if (!senderAsset) return undefined;
return destinationConfig.assets.find((a) => a.tokenId === senderAsset.tokenId);
```
-/
def getDestinationAsset (senderNetwork destinationNetwork : UtxoNetworkKey)
    (assetIdSender : Option String) : Option NetworkAsset :=
  let destinationConfig := testnetNetworkIdMap.get destinationNetwork
  match assetIdSender with
  | none => destinationConfig.assets.head?
  | some aid =>
    let senderConfig := testnetNetworkIdMap.get senderNetwork
    match senderConfig.assets.find? (fun a => a.assetId == aid) with
    | none => none
    | some senderAsset =>
      destinationConfig.assets.find? (fun a => a.tokenId == senderAsset.tokenId)

/-! ## Bridge data types (src/utexo/bridge/types.ts) -/

structure NetworkAddress where
  address : String
  networkName : Option String
  networkId : Nat
deriving DecidableEq, Repr

structure TokenInfo where
  id : Nat
  shortName : String
  longName : String
  iconLink : String
deriving DecidableEq, Repr

/-- `TransferByMainnetInvoiceResponse`: a bridge transfer record (fields the
SDK reads; `commission`, transaction hashes and timestamps are carried as
plain strings). -/
structure BridgeTransfer where
  id : Nat
  senderAmount : String
  recipientAmount : String
  commission : String
  senderToken : TokenInfo
  recipientToken : TokenInfo
  sender : NetworkAddress
  recipient : NetworkAddress
  status : String
  createdAt : String
deriving DecidableEq, Repr

/-- `BridgeInSignatureRequest`. -/
structure BridgeInSignatureRequest where
  sender : NetworkAddress
  tokenId : Nat
  amount : String
  destination : NetworkAddress
  additionalAddresses : List String
deriving DecidableEq, Repr

/-- `BridgeInSignatureResponse` (fields the SDK reads: `amount`,
`signature`, `transferId`). -/
structure BridgeInSignatureResponse where
  amount : String
  transferId : Nat
  signature : String
deriving DecidableEq, Repr

/-! ## UTF-8 first byte and withdrawal status mapping
(src/utexo/bridge/api.ts) -/

/-- Standard UTF-8 encoding of one character (what `TextEncoder` produces
per char). -/
def utf8EncodeChar (c : Char) : List Nat :=
  let n := c.toNat
  if n < 0x80 then [n]
  else if n < 0x800 then [0xC0 + n / 64, 0x80 + n % 64]
  else if n < 0x10000 then
    [0xE0 + n / 4096, 0x80 + n / 64 % 64, 0x80 + n % 64]
  else
    [0xF0 + n / 0x40000, 0x80 + n / 4096 % 64, 0x80 + n / 64 % 64, 0x80 + n % 64]

/-- The UTF-8 byte sequence `new TextEncoder().encode(s)`. -/
def utf8Encode (s : String) : List Nat :=
  (s.data.map utf8EncodeChar).flatten

/-- `encodeTransferStatus` from `api.ts`:

```ts
const textEncoder = new TextEncoder();
return textEncoder.encode(transferStatus.toString())[0];
```

`[0]` of an empty encoding is `undefined`, modelled as `none`. -/
def encodeTransferStatus (transferStatus : String) : Option Nat :=
  (utf8Encode transferStatus).head?

/-- `TransferStatuses[encodeTransferStatus(status)]`: the status-name table
`TransferStatuses` is imported by `api.ts` from a module whose source is
external, so it is passed as an explicit table parameter
(`none` models an `undefined` table entry or `undefined` index). -/
def mapWithdrawStatus (table : Nat → Option String) (status : String) :
    Option String :=
  match encodeTransferStatus status with
  | none => none
  | some b => table b

/-- A history entry after `getWithdrawTransfer`'s
`{...transfer, status: TransferStatuses[encodeTransferStatus(transfer.status)]}`
spread: the original record plus the remapped status. -/
structure MappedWithdrawTransfer where
  base : BridgeTransfer
  status : Option String
deriving DecidableEq, Repr

/-- `getWithdrawTransfer(invoice, networkId)` from `api.ts`, applied to the
`transfers` array returned by `GET /transfers/history` for that network:

```ts
if (data.transfers.length === 0) return null;
const withdrawTransfer = data.transfers
  .map(transfer => ({...transfer, status: TransferStatuses[encodeTransferStatus(transfer.status)]}))
  .find(transfer => transfer.recipient.address === invoice);
if (!withdrawTransfer) return null;
return withdrawTransfer;
```
-/
def getWithdrawTransfer (table : Nat → Option String)
    (history : List BridgeTransfer) (invoice : String) :
    Option MappedWithdrawTransfer :=
  if history.length = 0 then none
  else
    (history.map (fun transfer =>
        { base := transfer, status := mapWithdrawStatus table transfer.status }))
      |>.find? (fun transfer => transfer.base.recipient.address == invoice)

/-! ## PSBT classification (PsbtSigner, `detectPsbtType`) -/

/-- The hardened-derivation marker character (an ASCII apostrophe, code 39). -/
def hardenedMark : Char := Char.ofNat 39

/-- Substring test on character lists, mirroring
`String.prototype.includes`. -/
def hasSubstr (needle : List Char) : List Char → Bool
  | [] => needle.isEmpty
  | c :: rest => needle.isPrefixOf (c :: rest) || hasSubstr needle rest

/-- `s.includes(needle)`. -/
def strIncludes (s needle : String) : Bool :=
  hasSubstr needle.data s.data

/-- The literal `"827167'"` tested by `detectPsbtType`. -/
def rgbCoinNeedleA : List Char := ['8', '2', '7', '1', '6', '7', hardenedMark]

/-- The literal `"827166'"` tested by `detectPsbtType`. -/
def rgbCoinNeedleB : List Char := ['8', '2', '7', '1', '6', '6', hardenedMark]

/-- `deriv.path`: `string | number[]` in the signer source. -/
inductive JsPath where
  | str (s : String)
  | nums (l : List Nat)
deriving DecidableEq, Repr

/-- One element of `pathToString`'s array branch:
`p >= 0x80000000 ? `${(p & 0x7fffffff)}'` : `${p}``. -/
def pathElemToString (p : Nat) : List Char :=
  if p ≥ 0x80000000 then (toString (p &&& 0x7fffffff)).data ++ [hardenedMark]
  else (toString p).data

/-- `pathToString` from the signer source: a string path is returned as is;
a numeric path is rendered with `/` separators and hardened markers. -/
def pathToString : JsPath → List Char
  | .str s => s.data
  | .nums l => List.intercalate ['/'] (l.map pathElemToString)

/-- One `tapBip32Derivation` entry (the field `detectPsbtType` reads). -/
structure TapDeriv where
  path : JsPath
deriving DecidableEq, Repr

/-- One PSBT input; an absent `tapBip32Derivation` is the empty list (the
source guards `input.tapBip32Derivation && input.tapBip32Derivation.length > 0`,
which treats both identically). -/
structure PsbtInput where
  tapBip32Derivation : List TapDeriv
deriving DecidableEq, Repr

/-- A parsed PSBT as `detectPsbtType` walks it. -/
structure ParsedPsbt where
  inputs : List PsbtInput
deriving DecidableEq, Repr

inductive PsbtType where
  | send
  | create_utxo
deriving DecidableEq, Repr

/-- The per-derivation test of `detectPsbtType`:
`pathStr.includes("827167'") || pathStr.includes("827166'")`. -/
def pathHasRgbCoinType (path : JsPath) : Bool :=
  hasSubstr rgbCoinNeedleA (pathToString path) ||
    hasSubstr rgbCoinNeedleB (pathToString path)

/-- `detectPsbtType(psbtBase64)` from the signer source.  The external
`Psbt.fromBase64` parser is an oracle parameter `parse`; a parse failure
(`none`, the `catch` branch) yields `create_utxo`:

```ts
try {
  const psbt = Psbt.fromBase64(psbtBase64.trim());
  for (let i = 0; i < psbt.inputCount; i++) {
    const input = psbt.data.inputs[i];
    if (input.tapBip32Derivation && input.tapBip32Derivation.length > 0) {
      for (const deriv of input.tapBip32Derivation) {
        const pathStr = pathToString(deriv.path);
        if (pathStr.includes("827167'") || pathStr.includes("827166'")) return 'send';
      }
    }
  }
  return 'create_utxo';
} catch (e) { return 'create_utxo'; }
```
-/
def detectPsbtType (parse : String → Option ParsedPsbt) (psbtBase64 : String) :
    PsbtType :=
  match parse ⟨jsTrimList psbtBase64.data⟩ with
  | none => .create_utxo
  | some psbt =>
    if psbt.inputs.any (fun input =>
        input.tapBip32Derivation.any (fun deriv => pathHasRgbCoinType deriv.path)) then
      .send
    else .create_utxo

/-! ## Bridge invoice decoding (`decodeBridgeInvoice`)

The wallet source decodes a bridge-returned hex payload by stripping an
optional `0x` prefix and decoding the remaining hex as UTF-8 (written
inline at the call sites as
`Buffer.from(hexInvoice.startsWith('0x') ? hexInvoice.slice(2) : hexInvoice, 'hex').toString('utf-8')`). -/

/-- Value of one hexadecimal digit character, if any. -/
def hexDigitVal (c : Char) : Option Nat :=
  if '0' ≤ c ∧ c ≤ '9' then some (c.toNat - 48)
  else if 'a' ≤ c ∧ c ≤ 'f' then some (c.toNat - 87)
  else if 'A' ≤ c ∧ c ≤ 'F' then some (c.toNat - 55)
  else none

/-- `Buffer.from(hex, 'hex')`: consume hex-digit pairs into bytes, stopping
at the first invalid pair (Node semantics; a trailing lone digit is also
dropped). -/
def bufferFromHex : List Char → List Nat
  | c1 :: c2 :: rest =>
    match hexDigitVal c1, hexDigitVal c2 with
    | some h, some l => (16 * h + l) :: bufferFromHex rest
    | _, _ => []
  | _ => []

/-- `hexInvoice.startsWith('0x')`. -/
def jsStartsWith0x (l : List Char) : Bool :=
  match l with
  | c1 :: c2 :: _ => c1 = '0' && c2 = 'x'
  | _ => false

/-- `decodeBridgeInvoice(hexInvoice)`: strip an optional `0x` prefix and
decode the remaining hex payload as a UTF-8 string.  The byte-to-string
step (`Buffer.prototype.toString('utf-8')`, a Node builtin) is the oracle
parameter `bufferUtf8`. -/
def decodeBridgeInvoice (bufferUtf8 : List Nat → String) (hexInvoice : String) :
    String :=
  let hex := if jsStartsWith0x hexInvoice.data
    then hexInvoice.data.drop 2
    else hexInvoice.data
  bufferUtf8 (bufferFromHex hex)

deriving instance DecidableEq for Except

/-! ## Wallet-engine data model (src/types) -/

/-- `TransferStatus` enum from the wallet model. -/
inductive TransferStatus where
  | WAITING_COUNTERPARTY
  | WAITING_CONFIRMATIONS
  | SETTLED
  | FAILED
deriving DecidableEq, Repr

/-- A local wallet-engine transfer record (the fields the orchestrator
reads). -/
structure RgbTransfer where
  idx : Nat
  recipientId : String
  status : TransferStatus
  amount : Nat
deriving DecidableEq, Repr

/-- `assignment` of a decoded invoice (the field the orchestrator reads;
`0` is falsy in the source's truthiness checks, `none` models
`undefined`). -/
structure InvoiceAssignment where
  amount : Option Nat
deriving DecidableEq, Repr

/-- A decoded RGB invoice (the fields the orchestrator reads). -/
structure InvoiceData where
  recipientId : String
  assetId : Option String
  assignment : InvoiceAssignment
deriving DecidableEq, Repr

/-- An asset balance record (`{settled, future, spendable}`). -/
structure AssetBalance where
  settled : Int
  future : Int
  spendable : Int
deriving DecidableEq, Repr

/-- Errors thrown by the wallet source: `ValidationError(message, field)`
and plain `Error(message)`. -/
inductive JsError where
  | validation (message field : String)
  | jsError (message : String)
deriving DecidableEq, Repr

/-- `witnessData` attached to a send request. -/
structure WitnessData where
  amountSat : Nat
  blinding : Nat
deriving DecidableEq, Repr

/-- The request the orchestrator passes to the wallet engine's `sendBegin`.
`amount` is a JavaScript number: `none` models `NaN`. -/
structure SendAssetBeginRequestModel where
  invoice : String
  amount : Option ℚ
  assetId : String
  donation : Bool
  witnessData : Option WitnessData
deriving DecidableEq, Repr

/-- `OnchainSendRequestModel` as `onchainSendBegin` consumes it
(`invoice`, optional `amount`, optional `assetId`). -/
structure OnchainSendRequestModel where
  invoice : String
  amount : Option ℚ
  assetId : Option String
deriving DecidableEq, Repr

/-! ## JavaScript truthiness and `Number()` -/

/-- Truthiness of `string | undefined` (`""` and `undefined` are falsy). -/
def jsTruthyStr : Option String → Bool
  | some s => !(s == "")
  | none => false

/-- Truthiness of `number | undefined` (`0` and `undefined` are falsy). -/
def jsTruthyNum : Option ℚ → Bool
  | some q => !(q == 0)
  | none => false

/-- Truthiness of a `number | undefined` integer field. -/
def jsTruthyNat : Option Nat → Bool
  | some n => !(n == 0)
  | none => false

/-- `Number(s)` restricted to plain decimal literals
(optional sign, digits, optional fraction); `none` models `NaN`.
Exponent and hex forms do not occur in the modelled flows. -/
def jsNumber (s : String) : Option ℚ :=
  let t := jsTrimList s.data
  if t = [] then some 0
  else
    let neg := jsStartsWithDash t
    let body := if neg then t.drop 1 else t
    match jsSplitChar '.' body with
    | [i] =>
      if i ≠ [] ∧ i.all (·.isDigit) then
        some ((if neg then -1 else 1) * (digitsToNat i : ℚ))
      else none
    | [i, f] =>
      if (i ++ f) ≠ [] ∧ i.all (·.isDigit) ∧ f.all (·.isDigit) then
        some ((if neg then -1 else 1) *
          ((digitsToNat i : ℚ) + (digitsToNat f : ℚ) / 10 ^ f.length))
      else none
    | _ => none

/-! ## The orchestrator (`UTEXOWallet`)

Each method is a function of an explicit environment of external
collaborators: the bridge HTTP client, the RGB wallet engine and two host
builtins.  The orchestrator's own branching, validation and data flow are
taken verbatim from the source. -/

/-- External collaborators of `UTEXOWallet` (bridge HTTP client, RGB wallet
engine, host builtins).  Bridge lookups that normalise failures to `null`
are `Option`-valued; wallet-engine calls may throw. -/
structure WalletEnv where
  /-- `bridgeAPI.getTransferByMainnetInvoice` (its `catch` returns `null`). -/
  getTransferByMainnetInvoice : String → Nat → Option BridgeTransfer
  /-- The `transfers` array `GET /transfers/history` returns per network id. -/
  getWithdrawHistory : Nat → List BridgeTransfer
  /-- The external `TransferStatuses` status-name table. -/
  transferStatuses : Nat → Option String
  /-- Wallet engine `decodeRGBInvoice`. -/
  decodeRGBInvoice : String → Except JsError InvoiceData
  /-- Wallet engine `getAssetBalance` (`none` models `undefined`). -/
  getAssetBalance : String → Except JsError (Option AssetBalance)
  /-- Wallet engine `sendBegin`, returning the unsigned PSBT. -/
  sendBegin : SendAssetBeginRequestModel → Except JsError String
  /-- `bridgeAPI.getBridgeInSignature`. -/
  getBridgeInSignature : BridgeInSignatureRequest → Except JsError BridgeInSignatureResponse
  /-- Wallet engine `listTransfers(assetId?)`. -/
  listTransfers : Option String → List RgbTransfer
  /-- `Number.prototype.toString` (host builtin). -/
  numToString : ℚ → String
  /-- `Buffer.prototype.toString('utf-8')` (host builtin). -/
  bufferUtf8 : List Nat → String

/-- Lift `toUnitsNumber`'s thrown `Error` into `JsError`. -/
def toUnitsNumberE (value : String) (precision : Nat) : Except JsError Int :=
  match toUnitsNumber value precision with
  | .ok n => .ok n
  | .error m => .error (.jsError m)

/-- `validateBalance(assetId, amount)` from `utexo-wallet.ts`:

```ts
const assetBalance = await this.getAssetBalance(assetId);
if (!assetBalance || !assetBalance.spendable) {
  throw new ValidationError('Asset balance is not found', 'assetBalance');
}
if (assetBalance.spendable < amount) {
  throw new ValidationError(`Insufficient balance ${assetBalance.spendable} < ${amount}`, 'amount');
}
```

(`!assetBalance.spendable` is JavaScript truthiness: a spendable balance of
exactly `0` takes the first branch.) -/
def validateBalance (env : WalletEnv) (assetId : String) (amount : Int) :
    Except JsError Unit :=
  match env.getAssetBalance assetId with
  | .error e => .error e
  | .ok none => .error (.validation "Asset balance is not found" "assetBalance")
  | .ok (some b) =>
    if b.spendable = 0 then
      .error (.validation "Asset balance is not found" "assetBalance")
    else if b.spendable < amount then
      .error (.validation
        ("Insufficient balance " ++ toString b.spendable ++ " < " ++ toString amount)
        "amount")
    else .ok ()

/-- `extractInvoiceAndAsset(bridgeTransfer)` from `utexo-wallet.ts`:
decode the bridge recipient invoice, resolve the destination asset by the
recipient token id, fail if unsupported. -/
def extractInvoiceAndAsset (env : WalletEnv) (idMap : UtxoNetworkIdMap)
    (bridgeTransfer : BridgeTransfer) :
    Except JsError (String × InvoiceData × NetworkAsset) :=
  let utexoInvoice := bridgeTransfer.recipient.address
  match env.decodeRGBInvoice utexoInvoice with
  | .error e => .error e
  | .ok invoiceData =>
    match idMap.utexo.getAssetById bridgeTransfer.recipientToken.id with
    | none => .error (.validation "Destination asset is not supported" "assetId")
    | some destinationAsset => .ok (utexoInvoice, invoiceData, destinationAsset)

/-- Result of a successful `onchainSendBegin`: the bridge-in-signature
requests issued (bridge mutations), the request passed to the wallet
engine's `sendBegin`, and the returned PSBT. -/
structure SendBeginOutcome where
  bridgeInRequests : List BridgeInSignatureRequest
  sendRequest : SendAssetBeginRequestModel
  psbt : String
deriving DecidableEq, Repr

/-- `UTEXOToMainnetRGB(params)` from `utexo-wallet.ts` — the branch of
`onchainSendBegin` taken when no bridge transfer matches the invoice:

```ts
const invoiceData = await this.decodeRGBInvoice({ invoice: params.invoice })
if (!params.assetId && !invoiceData.assetId) throw ValidationError('Asset ID is required for external invoice')
const assetId = params.assetId ?? invoiceData.assetId;
const utexoAsset = getDestinationAsset('mainnet', 'utexo', assetId ?? null);
if (!utexoAsset) throw ValidationError('UTEXO asset is not supported')
const destinationAsset = this.networkIdMap.mainnet.getAssetById(utexoAsset?.tokenId ?? 0);
if (!destinationAsset) throw ValidationError('Destination asset is not supported')
if (!params.amount && !invoiceData.assignment.amount) throw ValidationError('Amount is required for external invoice')
let amount = params.amount ? params.amount
  : invoiceData.assignment.amount ? fromUnitsNumber(invoiceData.assignment.amount, destinationAsset.precision)
  : throw ValidationError('Amount is required');
await this.validateBalance(utexoAsset.assetId, toUnitsNumber(amount.toString(), utexoAsset.precision));
const payload = { sender: utexo-network, tokenId: destinationAsset.tokenId, amount: amount.toString(),
                  destination: { address: params.invoice, ...mainnet-network }, additionalAddresses: [] };
const bridgeOutTransfer = await bridgeAPI.getBridgeInSignature(payload);
const decodedInvoice = decodeBridgeInvoice(bridgeOutTransfer.signature);
const isWitness = decodedInvoice.includes("wvout:");
const psbt = await this.utexoRGBWallet.sendBegin({ invoice: decodedInvoice,
  amount: Number(bridgeOutTransfer.amount), assetId: utexoAsset.assetId, donation: true,
  ...(isWitness && { witnessData: { amountSat: 1000, blinding: 0 } }) });
return psbt;
```
-/
def UTEXOToMainnetRGB (env : WalletEnv) (idMap : UtxoNetworkIdMap)
    (params : OnchainSendRequestModel) : Except JsError SendBeginOutcome :=
  match env.decodeRGBInvoice params.invoice with
  | .error e => .error e
  | .ok invoiceData =>
    if ¬ jsTruthyStr params.assetId ∧ ¬ jsTruthyStr invoiceData.assetId then
      .error (.validation "Asset ID is required for external invoice" "assetId")
    else
      let assetId := params.assetId.orElse (fun _ => invoiceData.assetId)
      match getDestinationAsset .mainnet .utexo assetId with
      | none => .error (.validation "UTEXO asset is not supported" "assetId")
      | some utexoAsset =>
        match idMap.mainnet.getAssetById utexoAsset.tokenId with
        | none => .error (.validation "Destination asset is not supported" "assetId")
        | some destinationAsset =>
          if ¬ jsTruthyNum params.amount ∧ ¬ jsTruthyNat invoiceData.assignment.amount then
            .error (.validation "Amount is required for external invoice" "amount")
          else
            match (if jsTruthyNum params.amount then
                Except.ok (params.amount.getD 0)
              else if jsTruthyNat invoiceData.assignment.amount then
                Except.ok (fromUnitsNumber (invoiceData.assignment.amount.getD 0)
                  destinationAsset.precision)
              else Except.error (JsError.validation "Amount is required" "amount") :
                Except JsError ℚ) with
            | .error e => .error e
            | .ok amount =>
              match toUnitsNumberE (env.numToString amount) utexoAsset.precision with
              | .error e => .error e
              | .ok vamount =>
                match validateBalance env utexoAsset.assetId vamount with
                | .error e => .error e
                | .ok _ =>
                  let payload : BridgeInSignatureRequest :=
                    { sender :=
                        { address := "rgb-address"
                          networkName := some idMap.utexo.networkName
                          networkId := idMap.utexo.networkId }
                      tokenId := destinationAsset.tokenId
                      amount := env.numToString amount
                      destination :=
                        { address := params.invoice
                          networkName := some idMap.mainnet.networkName
                          networkId := idMap.mainnet.networkId }
                      additionalAddresses := [] }
                  match env.getBridgeInSignature payload with
                  | .error e => .error e
                  | .ok bridgeOutTransfer =>
                    let decodedInvoice :=
                      decodeBridgeInvoice env.bufferUtf8 bridgeOutTransfer.signature
                    let isWitness := strIncludes decodedInvoice "wvout:"
                    let req : SendAssetBeginRequestModel :=
                      { invoice := decodedInvoice
                        amount := jsNumber bridgeOutTransfer.amount
                        assetId := utexoAsset.assetId
                        donation := true
                        witnessData := if isWitness then some ⟨1000, 0⟩ else none }
                    match env.sendBegin req with
                    | .error e => .error e
                    | .ok psbt =>
                      .ok { bridgeInRequests := [payload], sendRequest := req, psbt := psbt }

/-- `onchainSendBegin(params)` from `utexo-wallet.ts`:

```ts
const bridgeTransfer = await bridgeAPI.getTransferByMainnetInvoice(params.invoice, this.networkIdMap.mainnet.networkId);
if (!bridgeTransfer) return this.UTEXOToMainnetRGB(params);
const utexoInvoice = bridgeTransfer.recipient.address;
const invoiceData = await this.decodeRGBInvoice({ invoice: utexoInvoice })
const bridgeAmount = bridgeTransfer.recipientAmount;
const destinationAsset = this.networkIdMap.utexo.getAssetById(bridgeTransfer.recipientToken.id);
if (!destinationAsset) throw ValidationError('Destination asset is not supported')
const amount = toUnitsNumber(bridgeAmount, destinationAsset.precision);
const isWitness = invoiceData.recipientId.includes("wvout:");
await this.validateBalance(destinationAsset.assetId, amount);
const psbt = await this.utexoRGBWallet.sendBegin({ invoice: utexoInvoice, amount,
  assetId: destinationAsset.assetId, donation: true,
  ...(isWitness && { witnessData: { amountSat: 1000, blinding: 0 } }) });
return psbt;
```
-/
def onchainSendBegin (env : WalletEnv) (idMap : UtxoNetworkIdMap)
    (params : OnchainSendRequestModel) : Except JsError SendBeginOutcome :=
  match env.getTransferByMainnetInvoice params.invoice idMap.mainnet.networkId with
  | none => UTEXOToMainnetRGB env idMap params
  | some bridgeTransfer =>
    let utexoInvoice := bridgeTransfer.recipient.address
    match env.decodeRGBInvoice utexoInvoice with
    | .error e => .error e
    | .ok invoiceData =>
      let bridgeAmount := bridgeTransfer.recipientAmount
      match idMap.utexo.getAssetById bridgeTransfer.recipientToken.id with
      | none => .error (.validation "Destination asset is not supported" "assetId")
      | some destinationAsset =>
        match toUnitsNumberE bridgeAmount destinationAsset.precision with
        | .error e => .error e
        | .ok amount =>
          let isWitness := strIncludes invoiceData.recipientId "wvout:"
          match validateBalance env destinationAsset.assetId amount with
          | .error e => .error e
          | .ok _ =>
            let req : SendAssetBeginRequestModel :=
              { invoice := utexoInvoice
                amount := some (amount : ℚ)
                assetId := destinationAsset.assetId
                donation := true
                witnessData := if isWitness then some ⟨1000, 0⟩ else none }
            match env.sendBegin req with
            | .error e => .error e
            | .ok psbt => .ok { bridgeInRequests := [], sendRequest := req, psbt := psbt }

/-- The value `getOnchainSendStatus` resolves: a status string mapped from
the withdrawal-history table (possibly `undefined`), or a local
wallet-engine transfer status. -/
inductive StatusLike where
  | fromTable (s : Option String)
  | fromLocal (s : TransferStatus)
deriving DecidableEq, Repr

/-- `getOnchainSendStatus(invoice)` from `utexo-wallet.ts`:

```ts
const bridgeTransfer = await bridgeAPI.getTransferByMainnetInvoice(invoice, this.networkIdMap.mainnet.networkId);
if (!bridgeTransfer) {
  const withdrawTransfer = await bridgeAPI.getWithdrawTransfer(invoice, this.networkIdMap.utexo.networkId);
  if (!withdrawTransfer) return null;
  return withdrawTransfer.status;
}
const { invoiceData, destinationAsset } = await this.extractInvoiceAndAsset(bridgeTransfer);
const transfers = await this.utexoRGBWallet.listTransfers(destinationAsset.assetId);
return transfers.length > 0
  ? transfers.find(transfer => transfer.recipientId === invoiceData.recipientId)?.status ?? null
  : null;
```
-/
def getOnchainSendStatus (env : WalletEnv) (idMap : UtxoNetworkIdMap)
    (invoice : String) : Except JsError (Option StatusLike) :=
  match env.getTransferByMainnetInvoice invoice idMap.mainnet.networkId with
  | none =>
    match getWithdrawTransfer env.transferStatuses
        (env.getWithdrawHistory idMap.utexo.networkId) invoice with
    | none => .ok none
    | some withdrawTransfer => .ok (some (.fromTable withdrawTransfer.status))
  | some bridgeTransfer =>
    match extractInvoiceAndAsset env idMap bridgeTransfer with
    | .error e => .error e
    | .ok (_, invoiceData, destinationAsset) =>
      let transfers := env.listTransfers (some destinationAsset.assetId)
      .ok (if transfers.length > 0 then
          (transfers.find? (fun transfer =>
            transfer.recipientId == invoiceData.recipientId)).map
            (fun transfer => .fromLocal transfer.status)
        else none)

/-! ## Concrete environment for witnesses -/

/-- A neutral concrete environment: all bridge lookups miss, the wallet
engine answers with fixed values. -/
def baseEnv : WalletEnv where
  getTransferByMainnetInvoice := fun _ _ => none
  getWithdrawHistory := fun _ => []
  transferStatuses := fun _ => none
  decodeRGBInvoice := fun _ =>
    .ok { recipientId := "", assetId := none, assignment := { amount := none } }
  getAssetBalance := fun _ => .ok none
  sendBegin := fun _ => .ok "psbt"
  getBridgeInSignature := fun _ => .ok { amount := "0", transferId := 0, signature := "" }
  listTransfers := fun _ => []
  numToString := fun _ => "0"
  bufferUtf8 := fun _ => ""

/-- A concrete bridge history entry with the given status, addressed to
invoice `"inv"` and carrying token id 4. -/
def histEntry (st : String) : BridgeTransfer where
  id := 1
  senderAmount := "1"
  recipientAmount := "1"
  commission := "0"
  senderToken := { id := 4, shortName := "tUSD", longName := "USDT", iconLink := "" }
  recipientToken := { id := 4, shortName := "tUSD", longName := "USDT", iconLink := "" }
  sender := { address := "s", networkName := none, networkId := 96 }
  recipient := { address := "inv", networkName := none, networkId := 96 }
  status := st
  createdAt := ""

/-- A status table distinguishing only the byte of `'C'`. -/
def cTable : Nat → Option String := fun b => if b == 67 then some "Settled" else none

/-- Environment for the C7 witness: the bridge lookup finds a transfer,
the decoded recipient invoice carries `recipientId = "r2"`, and the local
transfer list holds entries `r1` and `r2`. -/
def c7Env : WalletEnv := { baseEnv with
  getTransferByMainnetInvoice := fun _ _ => some (histEntry "Confirmed")
  decodeRGBInvoice := fun _ =>
    .ok { recipientId := "r2", assetId := none, assignment := { amount := none } }
  listTransfers := fun _ =>
    [{ idx := 0, recipientId := "r1", status := .FAILED, amount := 5 },
     { idx := 1, recipientId := "r2", status := .SETTLED, amount := 7 }] }

/-- Bridge transfer for the C4 witness: `recipientAmount = "1.500000"`,
recipient token id 4 (precision 6 locally). -/
def c4Transfer : BridgeTransfer := { histEntry "Confirmed" with recipientAmount := "1.500000" }

/-- Environment for the C4 witness. -/
def c4Env : WalletEnv := { baseEnv with
  getTransferByMainnetInvoice := fun _ _ => some c4Transfer
  decodeRGBInvoice := fun _ =>
    .ok { recipientId := "r2", assetId := none, assignment := { amount := none } }
  getAssetBalance := fun _ => .ok (some ⟨2000000, 0, 2000000⟩)
  sendBegin := fun _ => .ok "PSBT" }

/-- Decoded caller invoice for the C1 scenario: it declares the settlement
network's asset id for tokenId 4. -/
def c1Invoice : InvoiceData :=
  { recipientId := "rid"
    assetId := some "rgb:WPRv95Nj-icdrgPp-zpQhIp_-2TyJ~Ge-k~FvuMZ-~vVnkA0"
    assignment := { amount := none } }

/-- Bridge-in-signature response returned by the bridge in the C1 scenario. -/
def c1Resp : BridgeInSignatureResponse :=
  { amount := "5", transferId := 7, signature := "68656c6c6f" }

/-- Environment for the C1 scenario: the primary bridge lookup misses, the
wallet engine decodes the caller's invoice, and the bridge answers the
bridge-in-signature request with `c1Resp`. -/
def c1Env : WalletEnv := { baseEnv with
  decodeRGBInvoice := fun _ => .ok c1Invoice
  getAssetBalance := fun _ => .ok (some ⟨9000000, 0, 9000000⟩)
  getBridgeInSignature := fun _ => .ok c1Resp
  sendBegin := fun _ => .ok "PSBT"
  numToString := fun _ => "5"
  bufferUtf8 := fun _ => "bridge-invoice" }

/-- Caller parameters for the C1 scenario. -/
def c1Params : OnchainSendRequestModel :=
  { invoice := "caller-invoice", amount := some 5, assetId := none }

/-- The bridge-in-signature request `UTEXOToMainnetRGB` issues in the C1
scenario. -/
def c1Payload : BridgeInSignatureRequest :=
  { sender := { address := "rgb-address", networkName := some "UTEXO", networkId := 96 }
    tokenId := 4
    amount := "5"
    destination :=
      { address := "caller-invoice", networkName := some "RGB", networkId := 36 }
    additionalAddresses := [] }

/-- The send request `UTEXOToMainnetRGB` passes to the wallet engine in the
C1 scenario. -/
def c1Req : SendAssetBeginRequestModel :=
  { invoice := "bridge-invoice"
    amount := jsNumber "5"
    assetId := "rgb:yJW4k8si-~8JdNfl-nM91qFu-r5rH_HS-1hM7jpi-L~lBf90"
    donation := true
    witnessData := none }

/-! ### Computation lemmas -/

theorem dropWhile_eq_self_of_none {p : Char → Bool} {l : List Char}
    (h : ∀ c ∈ l, p c = false) : l.dropWhile p = l := by
  induction l with
  | nil => rfl
  | cons c cs ih =>
    simp [List.dropWhile, h c (List.mem_cons_self c cs)]

theorem jsTrimList_eq_self {l : List Char}
    (h : ∀ c ∈ l, jsIsWhitespace c = false) : jsTrimList l = l := by
  unfold jsTrimList
  rw [dropWhile_eq_self_of_none h, dropWhile_eq_self_of_none, List.reverse_reverse]
  intro c hc
  exact h c (List.mem_reverse.mp hc)

theorem jsSplitChar_ne_nil (sep : Char) (l : List Char) :
    jsSplitChar sep l ≠ [] := by
  cases l with
  | nil => simp [jsSplitChar]
  | cons c cs =>
    simp only [jsSplitChar]
    cases h : jsSplitChar sep cs with
    | nil => simp
    | cons h t =>
      by_cases hc : c = sep <;> simp [hc]

theorem jsSplitChar_no_sep {sep : Char} {l : List Char}
    (h : ∀ c ∈ l, ¬ c = sep) : jsSplitChar sep l = [l] := by
  induction l with
  | nil => rfl
  | cons c cs ih =>
    have hrec := ih (fun x hx => h x (List.mem_cons_of_mem c hx))
    simp only [jsSplitChar, hrec]
    simp [h c (List.mem_cons_self c cs)]

theorem jsSplitChar_append {sep : Char} {a b : List Char}
    (h : ∀ c ∈ a, ¬ c = sep) :
    jsSplitChar sep (a ++ sep :: b) = a :: jsSplitChar sep b := by
  induction a with
  | nil =>
    simp only [List.nil_append, jsSplitChar]
    cases hb : jsSplitChar sep b with
    | nil => exact absurd hb (jsSplitChar_ne_nil sep b)
    | cons hd tl => simp
  | cons c cs ih =>
    have hrec := ih (fun x hx => h x (List.mem_cons_of_mem c hx))
    show (match jsSplitChar sep (cs ++ sep :: b) with
      | [] => [[]]
      | h :: t => if c = sep then [] :: h :: t else (c :: h) :: t) = _
    rw [hrec]
    simp [h c (List.mem_cons_self c cs)]

theorem digitsToNat_aux (l : List Char) (n : Nat) :
    l.foldl (fun acc c => acc * 10 + (c.toNat - 48)) n =
      n * 10 ^ l.length + digitsToNat l := by
  induction l generalizing n with
  | nil => simp [digitsToNat]
  | cons c cs ih =>
    simp only [List.foldl, digitsToNat, List.length_cons]
    rw [ih (n * 10 + (c.toNat - 48)), ih (0 * 10 + (c.toNat - 48))]
    ring

theorem digitsToNat_append (a b : List Char) :
    digitsToNat (a ++ b) = digitsToNat a * 10 ^ b.length + digitsToNat b := by
  unfold digitsToNat
  rw [List.foldl_append]
  exact digitsToNat_aux b _

theorem digitsToNat_replicate_zero (n : Nat) :
    digitsToNat (List.replicate n '0') = 0 := by
  induction n with
  | zero => rfl
  | succ k ih =>
    rw [List.replicate_succ]
    show List.foldl _ _ _ = 0
    simpa [digitsToNat] using ih

theorem isDigit_not_ws {c : Char} (h : c.isDigit = true) : jsIsWhitespace c = false := by
  by_contra hne
  have hws : jsIsWhitespace c = true := by
    cases hb : jsIsWhitespace c with
    | false => exact absurd hb hne
    | true => rfl
  unfold jsIsWhitespace at hws
  simp only [Bool.or_eq_true, decide_eq_true_eq] at hws
  rcases hws with ((((((((h' | h') | h') | h') | h') | h') | h') | h') | h') | h' <;>
    (subst h'; exact absurd h (by decide))

theorem render_data (d : DecString) :
    d.render.data = (if d.neg then ['-'] else []) ++ d.intPart ++
      (if d.fracPart = [] then [] else '.' :: d.fracPart) := rfl

theorem render_no_ws (d : DecString) (hwf : d.wf) :
    ∀ c ∈ d.render.data, jsIsWhitespace c = false := by
  intro c hc
  rw [render_data] at hc
  simp only [List.append_assoc, List.mem_append] at hc
  rcases hc with hc | hc | hc
  · cases hn : d.neg with
    | true => rw [hn] at hc; simp at hc; subst hc; decide
    | false => rw [hn] at hc; simp at hc
  · exact isDigit_not_ws (hwf.1 c hc)
  · cases hfp : d.fracPart with
    | nil => rw [hfp] at hc; simp at hc
    | cons a l =>
      rw [hfp] at hc
      simp only [List.mem_cons, reduceCtorEq, List.cons_ne_self, if_neg] at hc
      have hc' : c = '.' ∨ c ∈ a :: l := by simpa using hc
      rcases hc' with hc' | hc'
      · subst hc'; decide
      · exact isDigit_not_ws (hwf.2 c (hfp ▸ hc'))

theorem frac_take (fPart : List Char) (p : Nat) :
    (fPart ++ List.replicate p '0').take p =
      fPart.take p ++ List.replicate (p - fPart.length) '0' := by
  rw [List.take_append_eq_append_take, List.take_replicate]
  congr 1
  rw [Nat.min_eq_left (Nat.sub_le _ _)]

theorem digitsToNat_singleton_zero : digitsToNat ['0'] = 0 := rfl

theorem jsNumberOfDigits_units (iPart F : List Char)
    (hi : ∀ c ∈ iPart, c.isDigit) (hF : ∀ c ∈ F, c.isDigit) :
    jsNumberOfDigits ((if iPart = [] then ['0'] else iPart) ++ F) =
      some (digitsToNat iPart * 10 ^ F.length + digitsToNat F) := by
  by_cases hip : iPart = []
  · subst hip
    rw [if_pos rfl]
    unfold jsNumberOfDigits
    rw [if_pos, digitsToNat_append, digitsToNat_singleton_zero]
    · norm_num [digitsToNat]
    · refine ⟨by simp, List.all_eq_true.mpr fun c hc => ?_⟩
      rcases List.mem_cons.mp hc with hc | hc
      · subst hc; decide
      · exact hF c hc
  · rw [if_neg hip]
    unfold jsNumberOfDigits
    rw [if_pos, digitsToNat_append]
    refine ⟨fun h => hip (List.append_eq_nil.mp h).1,
      List.all_eq_true.mpr fun c hc => ?_⟩
    rcases List.mem_append.mp hc with hc | hc
    · exact hi c hc
    · exact hF c hc

theorem take_digits {fPart : List Char} (hf : ∀ c ∈ fPart, c.isDigit) (p : Nat) :
    ∀ c ∈ fPart.take p, c.isDigit :=
  fun c hc => hf c (List.take_subset p fPart hc)

theorem replicate_zero_digits (n : Nat) :
    ∀ c ∈ List.replicate n '0', c.isDigit := by
  intro c hc
  rw [List.eq_of_mem_replicate hc]
  decide

theorem no_dot_of_digits {l : List Char} (h : ∀ c ∈ l, c.isDigit) :
    ∀ c ∈ l, ¬ c = '.' := by
  intro c hc heq
  subst heq
  exact absurd (h _ hc) (by decide)

/-- Value of the `unitsStr` digit string `toUnitsNumber` builds from integer
part `iPart` and fractional part `fPart` at precision `p`. -/
theorem toUnits_body (iPart fPart : List Char) (p : Nat)
    (hi : ∀ c ∈ iPart, c.isDigit) (hf : ∀ c ∈ fPart, c.isDigit) :
    toUnitsUnsigned (iPart ++ (if fPart = [] then [] else '.' :: fPart)) p =
      some (digitsToNat iPart * 10 ^ p +
            digitsToNat (fPart.take p) * 10 ^ (p - fPart.length)) := by
  unfold toUnitsUnsigned
  by_cases hfp : fPart = []
  · subst hfp
    rw [if_pos rfl, List.append_nil, jsSplitChar_no_sep (no_dot_of_digits hi)]
    simp only [List.headD_cons, List.drop_one, List.tail_cons, List.headD_nil,
      List.nil_append]
    rw [List.take_replicate, Nat.min_self]
    rw [jsNumberOfDigits_units iPart (List.replicate p '0') hi (replicate_zero_digits p)]
    rw [digitsToNat_replicate_zero, List.length_replicate]
    simp [digitsToNat]
  · rw [if_neg hfp, jsSplitChar_append (no_dot_of_digits hi),
      jsSplitChar_no_sep (no_dot_of_digits hf)]
    simp only [List.headD_cons, List.drop_one, List.tail_cons]
    rw [frac_take]
    rw [jsNumberOfDigits_units iPart _ hi (fun c hc => by
      rcases List.mem_append.mp hc with hc | hc
      · exact take_digits hf p c hc
      · exact replicate_zero_digits _ c hc)]
    rw [digitsToNat_append, digitsToNat_replicate_zero, List.length_append,
      List.length_replicate, List.length_take]
    have hlen : p ⊓ fPart.length + (p - fPart.length) = p := by omega
    rw [hlen]
    ring_nf

/-- What `toUnitsNumber` computes on any rendered plain decimal string:
the sign-adjusted base-unit magnitude if it is within the safe-integer
bound, the overflow error otherwise. -/
theorem toUnitsCore_eq (s : List Char) (p : Nat) :
    toUnitsCore s p =
      match toUnitsUnsigned (if jsStartsWithDash s then s.drop 1 else s) p with
      | none => .error overflowMsg
      | some units =>
        if units ≤ NUMBER_MAX_SAFE_INTEGER then
          .ok (if jsStartsWithDash s then -(units : Int) else (units : Int))
        else .error overflowMsg := rfl

theorem toUnitsNumber_render (d : DecString) (p : Nat) (hwf : d.wf) :
    toUnitsNumber d.render p =
      if d.baseUnits p ≤ NUMBER_MAX_SAFE_INTEGER then
        .ok (d.sign * (d.baseUnits p : Int))
      else .error overflowMsg := by
  have htrim : jsTrimList d.render.data = d.render.data :=
    jsTrimList_eq_self (render_no_ws d hwf)
  have hbody := toUnits_body d.intPart d.fracPart p hwf.1 hwf.2
  have hbase : DecString.baseUnits d p =
      digitsToNat d.intPart * 10 ^ p +
        digitsToNat (d.fracPart.take p) * 10 ^ (p - d.fracPart.length) := rfl
  unfold toUnitsNumber
  rw [htrim, toUnitsCore_eq, render_data]
  cases hneg : d.neg with
  | true =>
    have hdash : jsStartsWithDash
        ('-' :: (d.intPart ++ (if d.fracPart = [] then [] else '.' :: d.fracPart))) = true := by
      simp [jsStartsWithDash]
    simp only [reduceIte, List.singleton_append, List.cons_append, List.nil_append,
      hdash, List.drop_succ_cons, List.drop_zero]
    rw [hbody, hbase]
    simp only [DecString.sign, hneg, reduceIte]
    split
    · rw [neg_one_mul]
    · rfl
  | false =>
    have hdash : jsStartsWithDash
        (d.intPart ++ (if d.fracPart = [] then [] else '.' :: d.fracPart)) = false := by
      cases hip : d.intPart with
      | cons a l =>
        have ha : ¬ a = '-' := by
          intro h
          have hd := hwf.1 a (hip ▸ List.mem_cons_self a l)
          rw [h] at hd
          exact absurd hd (by decide)
        simp [jsStartsWithDash, ha]
      | nil =>
        cases hfp : d.fracPart with
        | nil => simp [jsStartsWithDash]
        | cons b m => simp [jsStartsWithDash]
    simp only [reduceIte, List.nil_append, hdash, Bool.false_eq_true, if_false]
    rw [hbody, hbase]
    simp only [DecString.sign, hneg, Bool.false_eq_true, if_false, one_mul]

/-- C2: for every decimal-string input whose base-unit result exceeds the
safe-integer bound `2^53 - 1`, `toUnitsNumber` throws the overflow error —
it never returns a silently rounded or truncated value. -/
theorem toUnitsNumber_overflow_error (d : DecString) (p : Nat) (hwf : d.wf)
    (hover : NUMBER_MAX_SAFE_INTEGER < d.baseUnits p) :
    toUnitsNumber d.render p = .error overflowMsg := by
  rw [toUnitsNumber_render d p hwf, if_neg (by omega)]

/-- Witness for C2 at the spec's example `toUnitsNumber("99999999999999999999.123456", 6)`. -/
theorem toUnitsNumber_overflow_error_witness :
    toUnitsNumber "99999999999999999999.123456" 6 = .error overflowMsg := by
  have h := toUnitsNumber_overflow_error
    ⟨false, "99999999999999999999".data, "123456".data⟩ 6 (by decide) (by decide)
  rwa [show DecString.render ⟨false, "99999999999999999999".data, "123456".data⟩ =
    "99999999999999999999.123456" by decide] at h

/-- C3: for every decimal string with at most `p` fractional digits whose
base-unit value is within the safe-integer range, `toUnitsNumber` succeeds
and `fromUnitsNumber` maps the result back to the exact numeric value of the
input string (round-trip law). -/
theorem toUnits_fromUnits_roundtrip (d : DecString) (p : Nat) (hwf : d.wf)
    (hlen : d.fracPart.length ≤ p)
    (hsafe : d.baseUnits p ≤ NUMBER_MAX_SAFE_INTEGER) :
    toUnitsNumber d.render p = .ok (d.sign * (d.baseUnits p : Int)) ∧
    fromUnitsNumber (d.sign * (d.baseUnits p : Int)) p = d.val := by
  refine ⟨by rw [toUnitsNumber_render d p hwf, if_pos hsafe], ?_⟩
  have h10p : (10 : ℚ) ^ p ≠ 0 := by positivity
  have h10l : (10 : ℚ) ^ d.fracPart.length ≠ 0 := by positivity
  have hkey : ((d.baseUnits p : ℚ)) / 10 ^ p =
      (digitsToNat d.intPart : ℚ) +
        (digitsToNat d.fracPart : ℚ) / 10 ^ d.fracPart.length := by
    have htake : d.fracPart.take p = d.fracPart := List.take_of_length_le hlen
    have hsplit : (10 : ℚ) ^ (p - d.fracPart.length) * 10 ^ d.fracPart.length
        = 10 ^ p := by
      rw [← pow_add]
      congr 1
      omega
    rw [show DecString.baseUnits d p = digitsToNat d.intPart * 10 ^ p +
      digitsToNat (d.fracPart.take p) * 10 ^ (p - d.fracPart.length) from rfl, htake]
    push_cast
    field_simp
    linear_combination (digitsToNat d.fracPart : ℚ) * hsplit
  cases hneg : d.neg with
  | false =>
    have hs : d.sign = 1 := by simp [DecString.sign, hneg]
    rw [hs, one_mul]
    unfold fromUnitsNumber
    rw [if_neg (not_lt.mpr (Int.natCast_nonneg _))]
    rw [abs_of_nonneg (by positivity)]
    rw [show ((((d.baseUnits p : Nat) : Int) : ℚ)) = ((d.baseUnits p : Nat) : ℚ) by push_cast; ring]
    rw [hkey]
    simp [DecString.val, hneg]
  | true =>
    have hs : d.sign = -1 := by simp [DecString.sign, hneg]
    rw [hs, neg_one_mul]
    by_cases hb : d.baseUnits p = 0
    · rw [hb]
      unfold fromUnitsNumber
      norm_num
      have hterm : digitsToNat d.intPart * 10 ^ p +
          digitsToNat (d.fracPart.take p) * 10 ^ (p - d.fracPart.length) = 0 := hb
      have h10pn : (0 : Nat) < 10 ^ p := Nat.pos_pow_of_pos p (by omega)
      have hi0 : digitsToNat d.intPart = 0 := by
        rcases Nat.add_eq_zero.mp hterm with ⟨hl, _⟩
        rcases Nat.mul_eq_zero.mp hl with h | h
        · exact h
        · omega
      have htake : d.fracPart.take p = d.fracPart := List.take_of_length_le hlen
      have hf0 : digitsToNat d.fracPart = 0 := by
        rcases Nat.add_eq_zero.mp hterm with ⟨_, hr⟩
        rcases Nat.mul_eq_zero.mp hr with h | h
        · rwa [htake] at h
        · have h10q : (0 : Nat) < 10 ^ (p - d.fracPart.length) :=
            Nat.pos_pow_of_pos _ (by omega)
          omega
      simp [DecString.val, hneg, hi0, hf0]
    · unfold fromUnitsNumber
      rw [if_pos (by omega)]
      rw [show |((-((d.baseUnits p : Nat) : Int) : Int) : ℚ)| = ((d.baseUnits p : Nat) : ℚ) by
        push_cast
        rw [abs_neg, abs_of_nonneg (by positivity)]]
      rw [hkey]
      simp only [DecString.val, hneg, reduceIte]
      ring

/-- Witness for C3 at `x = "1.5"`, `p = 1`: `toUnitsNumber "1.5" 1 = 15` and
`fromUnitsNumber 15 1 = 3/2`, the exact numeric value of `"1.5"`. -/
theorem toUnits_fromUnits_roundtrip_witness :
    toUnitsNumber "1.5" 1 = .ok 15 ∧ fromUnitsNumber 15 1 = (3 : ℚ) / 2 := by
  have h := toUnits_fromUnits_roundtrip ⟨false, "1".data, "5".data⟩ 1
    (by decide) (by decide) (by decide)
  obtain ⟨h1, h2⟩ := h
  have hr : DecString.render ⟨false, "1".data, "5".data⟩ = "1.5" := by decide
  have hu : DecString.sign ⟨false, "1".data, "5".data⟩ *
      ((DecString.baseUnits ⟨false, "1".data, "5".data⟩ 1 : Nat) : Int) = 15 := by decide
  have hv : DecString.val ⟨false, "1".data, "5".data⟩ = (3 : ℚ) / 2 := by
    unfold DecString.val
    rw [show digitsToNat "1".data = 1 from rfl, show digitsToNat "5".data = 5 from rfl,
      show ("5".data).length = 1 from rfl]
    norm_num
  rw [hr, hu] at h1
  rw [hu, hv] at h2
  exact ⟨h1, h2⟩

/-! ## C5: PSBT classification -/

/-- C5: `detectPsbtType` classifies a PSBT as the asset-send shape iff some
input's Taproot derivation path contains a reserved asset coin-type segment
(`827167'` or `827166'`); any parsed PSBT without such a segment, and any
unparseable input, classifies as `create_utxo` — classification never
throws (it is a total function). -/
theorem detectPsbtType_spec (parse : String → Option ParsedPsbt) (s : String) :
    (detectPsbtType parse s = .send ↔
      ∃ psbt, parse ⟨jsTrimList s.data⟩ = some psbt ∧
        ∃ input ∈ psbt.inputs, ∃ deriv ∈ input.tapBip32Derivation,
          pathHasRgbCoinType deriv.path = true) ∧
    (parse ⟨jsTrimList s.data⟩ = none → detectPsbtType parse s = .create_utxo) := by
  unfold detectPsbtType
  cases hp : parse ⟨jsTrimList s.data⟩ with
  | none =>
    dsimp only
    refine ⟨⟨fun h => absurd h (by simp), ?_⟩, fun _ => rfl⟩
    rintro ⟨psbt, hps, -⟩
    exact absurd hps (by simp)
  | some psbt =>
    dsimp only
    refine ⟨⟨?_, ?_⟩, fun hcon => absurd hcon (by simp)⟩
    · intro h
      by_cases hc : (psbt.inputs.any fun input =>
          input.tapBip32Derivation.any fun deriv => pathHasRgbCoinType deriv.path) = true
      · exact ⟨psbt, rfl, by simpa [List.any_eq_true] using hc⟩
      · rw [if_neg hc] at h
        exact absurd h (by simp)
    · rintro ⟨psbt', hps, input, hin, deriv, hde, hpath⟩
      injection hps with hinj
      subst hinj
      have hcond : (psbt.inputs.any fun input =>
          input.tapBip32Derivation.any fun deriv => pathHasRgbCoinType deriv.path) = true := by
        rw [List.any_eq_true]
        exact ⟨input, hin, List.any_eq_true.mpr ⟨deriv, hde, hpath⟩⟩
      rw [if_pos hcond]

/-! ## C8: bridge invoice hex decoding -/

theorem jsStartsWith0x_false_of_hex {l : List Char}
    (hhex : ∀ c ∈ l, (hexDigitVal c).isSome) :
    jsStartsWith0x l = false := by
  cases l with
  | nil => rfl
  | cons c1 rest =>
    cases rest with
    | nil => rfl
    | cons c2 rest2 =>
      have h2 := hhex c2 (by simp)
      have hx : ¬ c2 = 'x' := by
        intro h
        rw [h] at h2
        rw [show hexDigitVal 'x' = none from by decide] at h2
        simp at h2
      simp [jsStartsWith0x, hx]

/-- C8: for every hex payload, decoding the bridge-issued invoice from
`"0x" + hex` and from `hex` alone produce identical strings — the optional
`0x` prefix is stripped and the remaining hex decoded identically. -/
theorem decodeBridgeInvoice_prefix_agnostic (bufferUtf8 : List Nat → String)
    (s : String) (hhex : ∀ c ∈ s.data, (hexDigitVal c).isSome) :
    decodeBridgeInvoice bufferUtf8 ("0x" ++ s) = decodeBridgeInvoice bufferUtf8 s := by
  unfold decodeBridgeInvoice
  have hdata : ("0x" ++ s).data = '0' :: 'x' :: s.data := by
    rw [String.data_append]
    rfl
  rw [hdata, jsStartsWith0x_false_of_hex hhex]
  simp [jsStartsWith0x]

/-- Witness for C8 at the hex payload `"48656c6c6f"` with a concrete
byte-to-string decoder. -/
theorem decodeBridgeInvoice_prefix_agnostic_witness :
    decodeBridgeInvoice (fun l => ⟨l.map Char.ofNat⟩) ("0x" ++ "48656c6c6f") =
      decodeBridgeInvoice (fun l => ⟨l.map Char.ofNat⟩) "48656c6c6f" :=
  decodeBridgeInvoice_prefix_agnostic (fun l => ⟨l.map Char.ofNat⟩) "48656c6c6f"
    (by decide)

/-! ## C9: zero balance is reported as not-found -/

/-- C9: a spendable balance of exactly `0` makes `validateBalance` throw the
`Asset balance is not found` validation error (field `assetBalance`)
regardless of the requested amount — it is never reported as the
insufficient-balance error and never passes. -/
theorem validateBalance_zero_not_found (env : WalletEnv) (assetId : String)
    (amount : Int) (b : AssetBalance)
    (hb : env.getAssetBalance assetId = .ok (some b))
    (h0 : b.spendable = 0) :
    validateBalance env assetId amount =
      .error (.validation "Asset balance is not found" "assetBalance") := by
  unfold validateBalance
  rw [hb]
  simp [h0]

/-- Witness for C9 with a zero spendable balance and a requested amount of
`0`. -/
theorem validateBalance_zero_not_found_witness :
    validateBalance
      { baseEnv with getAssetBalance := fun _ => .ok (some ⟨0, 0, 0⟩) }
      "asset" 0 =
      .error (.validation "Asset balance is not found" "assetBalance") :=
  validateBalance_zero_not_found _ "asset" 0 ⟨0, 0, 0⟩ rfl rfl

/-! ## C10: withdrawal status mapping depends only on the first byte -/

theorem utf8EncodeChar_ne_nil (c : Char) : utf8EncodeChar c ≠ [] := by
  unfold utf8EncodeChar
  dsimp only
  split_ifs <;> simp

theorem encodeTransferStatus_head (s : String) :
    encodeTransferStatus s =
      match s.data.head? with
      | none => none
      | some c => (utf8EncodeChar c).head? := by
  unfold encodeTransferStatus utf8Encode
  cases h : s.data with
  | nil => rfl
  | cons c rest =>
    rw [List.map_cons, List.flatten_cons, List.head?_append]
    cases hc : (utf8EncodeChar c).head? with
    | none =>
      exact absurd (List.head?_eq_none_iff.mp hc) (utf8EncodeChar_ne_nil c)
    | some b =>
      show some b = _
      rw [show (c :: rest).head? = some c from rfl]
      exact hc.symm

theorem mapWithdrawStatus_first_char (table : Nat → Option String)
    {s₁ s₂ : String} (h : s₁.data.head? = s₂.data.head?) :
    mapWithdrawStatus table s₁ = mapWithdrawStatus table s₂ := by
  unfold mapWithdrawStatus
  rw [encodeTransferStatus_head, encodeTransferStatus_head, h]

theorem getWithdrawTransfer_status_eq (table : Nat → Option String)
    (history : List BridgeTransfer) (invoice : String)
    (r : MappedWithdrawTransfer)
    (hf : getWithdrawTransfer table history invoice = some r) :
    r.status = mapWithdrawStatus table r.base.status := by
  unfold getWithdrawTransfer at hf
  by_cases hh : history.length = 0
  · rw [if_pos hh] at hf
    exact absurd hf (by simp)
  · rw [if_neg hh] at hf
    have hmem := List.mem_of_find?_eq_some hf
    rcases List.mem_map.mp hmem with ⟨t, _, ht⟩
    subst ht
    rfl

/-- C10: any two bridge history entries whose status strings begin with the
same character (hence share their first UTF-8 byte) are mapped by
`getWithdrawTransfer` to the same local status — the mapped status depends
only on the first UTF-8 byte of the bridge-reported status string. -/
theorem getWithdrawTransfer_first_byte (table : Nat → Option String)
    (history₁ history₂ : List BridgeTransfer) (invoice₁ invoice₂ : String)
    (r₁ r₂ : MappedWithdrawTransfer)
    (h₁ : getWithdrawTransfer table history₁ invoice₁ = some r₁)
    (h₂ : getWithdrawTransfer table history₂ invoice₂ = some r₂)
    (hhead : r₁.base.status.data.head? = r₂.base.status.data.head?) :
    r₁.status = r₂.status := by
  rw [getWithdrawTransfer_status_eq table history₁ invoice₁ r₁ h₁,
    getWithdrawTransfer_status_eq table history₂ invoice₂ r₂ h₂]
  exact mapWithdrawStatus_first_char table hhead

/-- Witness for C10: `"Confirmed"` and `"Cancelled"` begin with the same
character and are mapped identically. -/
theorem getWithdrawTransfer_first_byte_witness :
    getWithdrawTransfer cTable [histEntry "Confirmed"] "inv" =
      some ⟨histEntry "Confirmed", some "Settled"⟩ ∧
    getWithdrawTransfer cTable [histEntry "Cancelled"] "inv" =
      some ⟨histEntry "Cancelled", some "Settled"⟩ ∧
    MappedWithdrawTransfer.status ⟨histEntry "Confirmed", some "Settled"⟩ =
      MappedWithdrawTransfer.status ⟨histEntry "Cancelled", some "Settled"⟩ :=
  ⟨by decide, by decide,
    getWithdrawTransfer_first_byte cTable [histEntry "Confirmed"]
      [histEntry "Cancelled"] "inv" "inv"
      ⟨histEntry "Confirmed", some "Settled"⟩
      ⟨histEntry "Cancelled", some "Settled"⟩
      (by decide) (by decide) (by decide)⟩

/-! ## C6: both lookups miss -/

/-- C6: when neither the primary bridge lookup nor the withdrawal-history
fallback finds a match, `getOnchainSendStatus` returns `null` and does not
throw. -/
theorem getOnchainSendStatus_both_miss (env : WalletEnv)
    (idMap : UtxoNetworkIdMap) (invoice : String)
    (h1 : env.getTransferByMainnetInvoice invoice idMap.mainnet.networkId = none)
    (h2 : getWithdrawTransfer env.transferStatuses
      (env.getWithdrawHistory idMap.utexo.networkId) invoice = none) :
    getOnchainSendStatus env idMap invoice = .ok none := by
  unfold getOnchainSendStatus
  rw [h1, h2]

/-- Witness for C6: an environment whose bridge lookups all miss. -/
theorem getOnchainSendStatus_both_miss_witness :
    getOnchainSendStatus baseEnv testnetNetworkIdMap "inv" = .ok none :=
  getOnchainSendStatus_both_miss baseEnv testnetNetworkIdMap "inv" rfl rfl

/-! ## C7: recipientId correlation -/

/-- C7: when the bridge lookup finds a transfer, the returned status comes
from the first local transfer whose `recipientId` equals the decoded bridge
recipient invoice's `recipientId` (entries with any other `recipientId` are
ignored by `find?`); if no entry matches, `null` is returned. -/
theorem getOnchainSendStatus_recipientId_match (env : WalletEnv)
    (idMap : UtxoNetworkIdMap) (invoice : String) (t : BridgeTransfer)
    (d : InvoiceData) (a : NetworkAsset)
    (hlookup : env.getTransferByMainnetInvoice invoice idMap.mainnet.networkId = some t)
    (hdecode : env.decodeRGBInvoice t.recipient.address = .ok d)
    (hasset : idMap.utexo.getAssetById t.recipientToken.id = some a) :
    getOnchainSendStatus env idMap invoice =
      .ok (((env.listTransfers (some a.assetId)).find?
          (fun transfer => transfer.recipientId == d.recipientId)).map
          (fun transfer => .fromLocal transfer.status)) := by
  unfold getOnchainSendStatus extractInvoiceAndAsset
  rw [hlookup]
  dsimp only
  rw [hdecode]
  dsimp only
  rw [hasset]
  dsimp only
  cases hl : env.listTransfers (some a.assetId) with
  | nil => simp
  | cons x xs => simp

/-- Witness for C7: the status is resolved from the `"r2"` entry, ignoring
`"r1"`. -/
theorem getOnchainSendStatus_recipientId_match_witness :
    getOnchainSendStatus c7Env testnetNetworkIdMap "inv" =
      .ok (some (.fromLocal .SETTLED)) := by
  have h := getOnchainSendStatus_recipientId_match c7Env testnetNetworkIdMap "inv"
    (histEntry "Confirmed")
    { recipientId := "r2", assetId := none, assignment := { amount := none } }
    { assetId := "rgb:yJW4k8si-~8JdNfl-nM91qFu-r5rH_HS-1hM7jpi-L~lBf90",
      tokenName := "tUSD", longName := "USDT", precision := 6, tokenId := 4 }
    rfl rfl (by decide)
  exact h.trans (by decide)

/-! ## C4: bridge-found branch uses toUnitsNumber on recipientAmount -/

/-- C4: when `onchainSendBegin` finds a bridge transfer, the base-unit
amount passed to the wallet engine's `sendBegin` is exactly
`toUnitsNumber(bridgeTransfer.recipientAmount, destinationAsset.precision)`,
where the destination asset is resolved from the bridge transfer's
recipient token id. -/
theorem onchainSendBegin_bridge_amount (env : WalletEnv)
    (idMap : UtxoNetworkIdMap) (params : OnchainSendRequestModel)
    (t : BridgeTransfer) (d : InvoiceData) (a : NetworkAsset) (amt : Int)
    (psbt : String)
    (hlookup : env.getTransferByMainnetInvoice params.invoice idMap.mainnet.networkId = some t)
    (hdecode : env.decodeRGBInvoice t.recipient.address = .ok d)
    (hasset : idMap.utexo.getAssetById t.recipientToken.id = some a)
    (hamt : toUnitsNumber t.recipientAmount a.precision = .ok amt)
    (hbal : validateBalance env a.assetId amt = .ok ())
    (hsend : env.sendBegin
      { invoice := t.recipient.address
        amount := some (amt : ℚ)
        assetId := a.assetId
        donation := true
        witnessData :=
          if strIncludes d.recipientId "wvout:" then some ⟨1000, 0⟩ else none } =
      .ok psbt) :
    onchainSendBegin env idMap params =
      .ok { bridgeInRequests := []
            sendRequest :=
              { invoice := t.recipient.address
                amount := some (amt : ℚ)
                assetId := a.assetId
                donation := true
                witnessData :=
                  if strIncludes d.recipientId "wvout:" then some ⟨1000, 0⟩ else none }
            psbt := psbt } := by
  unfold onchainSendBegin
  rw [hlookup]
  dsimp only
  rw [hdecode]
  dsimp only
  rw [hasset]
  dsimp only
  rw [show toUnitsNumberE t.recipientAmount a.precision = .ok amt by
    unfold toUnitsNumberE
    rw [hamt]]
  dsimp only
  rw [hbal]
  dsimp only
  rw [hsend]

/-- Witness for C4: `recipientAmount "1.500000"` at precision 6 yields a
send amount of exactly `1500000`. -/
theorem onchainSendBegin_bridge_amount_witness :
    toUnitsNumber "1.500000" 6 = .ok 1500000 ∧
    onchainSendBegin c4Env testnetNetworkIdMap
        { invoice := "inv", amount := none, assetId := none } =
      .ok { bridgeInRequests := []
            sendRequest :=
              { invoice := "inv"
                amount := some 1500000
                assetId := "rgb:yJW4k8si-~8JdNfl-nM91qFu-r5rH_HS-1hM7jpi-L~lBf90"
                donation := true
                witnessData := none }
            psbt := "PSBT" } := by
  constructor
  · decide
  · have h := onchainSendBegin_bridge_amount c4Env testnetNetworkIdMap
      { invoice := "inv", amount := none, assetId := none } c4Transfer
      { recipientId := "r2", assetId := none, assignment := { amount := none } }
      { assetId := "rgb:yJW4k8si-~8JdNfl-nM91qFu-r5rH_HS-1hM7jpi-L~lBf90",
        tokenName := "tUSD", longName := "USDT", precision := 6, tokenId := 4 }
      1500000 "PSBT" rfl rfl (by decide) (by decide) (by decide) (by decide)
    exact h.trans (by decide)

/-! ## C1: the no-bridge-transfer branch of `onchainSendBegin` -/

/-- C1 (amended): when the primary bridge lookup finds no transfer,
`onchainSendBegin` delegates to `UTEXOToMainnetRGB`: it decodes the
caller's invoice locally and resolves the destination asset from the
caller-supplied override or the invoice's declared asset id, but it then
requests a bridge-in signature naming the caller's invoice as the
destination (a bridge mutation), and builds the send request to the
invoice decoded from the bridge-returned signature with the bridge-returned
amount — not directly to the caller's invoice. -/
theorem onchainSendBegin_external_bridge_out
    (env : WalletEnv) (idMap : UtxoNetworkIdMap) (params : OnchainSendRequestModel)
    (d : InvoiceData) (uA dA : NetworkAsset) (amount : ℚ) (vamount : Int)
    (resp : BridgeInSignatureResponse) (psbt : String)
    (payload : BridgeInSignatureRequest) (req : SendAssetBeginRequestModel)
    (hlookup : env.getTransferByMainnetInvoice params.invoice idMap.mainnet.networkId = none)
    (hdecode : env.decodeRGBInvoice params.invoice = .ok d)
    (hassetReq : jsTruthyStr params.assetId = true ∨ jsTruthyStr d.assetId = true)
    (huA : getDestinationAsset .mainnet .utexo
      (params.assetId.orElse (fun _ => d.assetId)) = some uA)
    (hdA : idMap.mainnet.getAssetById uA.tokenId = some dA)
    (hamount : (if jsTruthyNum params.amount then
        Except.ok (params.amount.getD 0)
      else if jsTruthyNat d.assignment.amount then
        Except.ok (fromUnitsNumber (d.assignment.amount.getD 0) dA.precision)
      else Except.error (JsError.validation "Amount is required" "amount") :
        Except JsError ℚ) = .ok amount)
    (hunits : toUnitsNumberE (env.numToString amount) uA.precision = .ok vamount)
    (hbal : validateBalance env uA.assetId vamount = .ok ())
    (hpayload : payload =
      { sender :=
          { address := "rgb-address"
            networkName := some idMap.utexo.networkName
            networkId := idMap.utexo.networkId }
        tokenId := dA.tokenId
        amount := env.numToString amount
        destination :=
          { address := params.invoice
            networkName := some idMap.mainnet.networkName
            networkId := idMap.mainnet.networkId }
        additionalAddresses := [] })
    (hsig : env.getBridgeInSignature payload = .ok resp)
    (hreq : req =
      { invoice := decodeBridgeInvoice env.bufferUtf8 resp.signature
        amount := jsNumber resp.amount
        assetId := uA.assetId
        donation := true
        witnessData :=
          if strIncludes (decodeBridgeInvoice env.bufferUtf8 resp.signature) "wvout:"
          then some ⟨1000, 0⟩ else none })
    (hsend : env.sendBegin req = .ok psbt) :
    onchainSendBegin env idMap params =
      .ok { bridgeInRequests := [payload], sendRequest := req, psbt := psbt } := by
  subst hpayload
  subst hreq
  unfold onchainSendBegin UTEXOToMainnetRGB
  rw [hlookup]
  dsimp only
  rw [hdecode]
  dsimp only
  rw [if_neg (fun hcon => hassetReq.elim (fun h => hcon.1 h) (fun h => hcon.2 h))]
  rw [huA]
  dsimp only
  rw [hdA]
  dsimp only
  have hguard : ¬(¬ jsTruthyNum params.amount = true ∧
      ¬ jsTruthyNat d.assignment.amount = true) := by
    rintro ⟨hA, hB⟩
    rw [if_neg hA, if_neg hB] at hamount
    exact absurd hamount (by simp)
  rw [if_neg hguard, hamount]
  dsimp only
  rw [hunits]
  dsimp only
  rw [hbal]
  dsimp only
  rw [hsig]
  dsimp only
  rw [hsend]

/-- C1 counterexample: on a concrete run with no matching bridge transfer,
`onchainSendBegin` issues a bridge-in-signature request (a bridge
mutation) whose destination is the caller's invoice, and builds the send
request to the bridge-returned decoded invoice — not to the caller's
invoice — refuting the claim that this branch performs no bridge mutation
and uses no bridge-returned invoice or amount. -/
theorem onchainSendBegin_external_counterexample :
    (onchainSendBegin c1Env testnetNetworkIdMap c1Params).map
        (fun o => (o.bridgeInRequests, o.sendRequest.invoice)) =
      .ok ([c1Payload], "bridge-invoice") ∧
    c1Payload.destination.address = c1Params.invoice ∧
    c1Params.invoice = "caller-invoice" ∧
    ("bridge-invoice" : String) ≠ "caller-invoice" ∧
    ([c1Payload] : List BridgeInSignatureRequest) ≠ [] :=
  ⟨by decide, by decide, by decide, by decide, by decide⟩

/-- Witness for the amended C1 theorem at the concrete C1 scenario. -/
theorem onchainSendBegin_external_bridge_out_witness :
    onchainSendBegin c1Env testnetNetworkIdMap c1Params =
      .ok { bridgeInRequests := [c1Payload], sendRequest := c1Req, psbt := "PSBT" } :=
  onchainSendBegin_external_bridge_out c1Env testnetNetworkIdMap c1Params
    c1Invoice
    { assetId := "rgb:yJW4k8si-~8JdNfl-nM91qFu-r5rH_HS-1hM7jpi-L~lBf90",
      tokenName := "tUSD", longName := "USDT", precision := 6, tokenId := 4 }
    { assetId := "rgb:WPRv95Nj-icdrgPp-zpQhIp_-2TyJ~Ge-k~FvuMZ-~vVnkA0",
      tokenName := "tUSD", longName := "USDT", precision := 6, tokenId := 4 }
    5 5000000 c1Resp "PSBT" c1Payload c1Req
    rfl rfl (Or.inr (by decide)) (by decide) (by decide) rfl (by decide)
    (by decide) rfl rfl rfl rfl
